import Mathlib

/-!
Verification of the account-signal scoring engine in
`src/terraform/ai_analysis_workflow.py` (class `UserWorkflowAnalyzer` and the
daily batch driver `run_daily_analysis`).

Shallow embedding conventions:
* Python dict records become Lean structures; a field looked up with
  `dict.get(key, default)` in the source becomes an `Option` field read with
  `Option.getD`.
* A record group that the fetch layer hands over as the empty dict (`{}`) is
  embedded as `Option` of the structure: `none` is the empty dict, on which
  the classifiers short-circuit to the `{"status": "no_data"}` report.
* Python numbers are embedded as `ℚ` (exact rational arithmetic) and the
  integer score accumulators as `ℤ`.
* The pattern dicts produced by each classifier are structures wrapped in
  `Option`: `none` embeds the `{"status": "no_data"}` dict, whose `.get(k)`
  lookups all return Python `None` (here: `Option.map` over `none`).
-/

namespace Opsai

/-- A row of the `unified_customers` view, as read by
`_analyze_customer_patterns`.  Every field is read with `.get` in the source,
so each is optional. -/
structure CustomerData where
  lifetime_value : Option ℚ
  engagement_level : Option String
  total_invoices : Option ℤ
  stripe_customer_id : Option String
  shopify_customer_id : Option String
deriving Repr, DecidableEq

/-- A row of the `developer_activity` view, as read by
`_analyze_dev_patterns`.  Every field is read with `.get` in the source. -/
structure DevData where
  productivity_score : Option ℚ
  avg_pr_merge_time : Option ℚ
  most_active_day : Option ℤ
  most_active_hour : Option ℤ
  total_prs : Option ℤ
deriving Repr, DecidableEq

/-- One entry of the `revenue_analytics` series ({month, revenue,
growth_rate}).  `revenue` is read with bare indexing (`r['revenue']`) in the
source, so it is a required field; `growth_rate` is only read behind
`r.get('growth_rate')`, so it is optional. -/
structure RevenueEntry where
  revenue : ℚ
  growth_rate : Option ℚ
deriving Repr, DecidableEq

/-- One entry of the `website_analytics` series.  All fields are read with
bare indexing in `_analyze_website_patterns` / `_categorize_growth`, so all
are required. -/
structure WebsiteEntry where
  daily_users : ℚ
  new_users : ℚ
  users : ℚ
  bounce_rate : ℚ
  sessions_per_user : ℚ
deriving Repr, DecidableEq

/-- The snapshot assembled by `_fetch_user_data`: one optional customer
record, one optional developer record, the chronological revenue series and
the website series. -/
structure UserData where
  customer : Option CustomerData
  developer : Option DevData
  revenue : List RevenueEntry
  website : List WebsiteEntry
deriving Repr, DecidableEq

/-- Python truthiness of `r.get('growth_rate')`: `None` and `0` are falsy,
every other number is truthy. -/
def truthy : Option ℚ → Bool
  | none => false
  | some g => g != 0

/-- The list comprehension
`[r['growth_rate'] for r in revenue_data if r.get('growth_rate')]`. -/
def growthRates (revenue_data : List RevenueEntry) : List ℚ :=
  (revenue_data.filter (fun r => truthy r.growth_rate)).map
    (fun r => r.growth_rate.getD 0)

/-- `_detect_seasonality`: returns `insufficient_data` below 12 entries and
the constant `no_seasonality` otherwise (the algorithm is a stub). -/
def detect_seasonality (revenue_data : List RevenueEntry) : String :=
  if revenue_data.length < 12 then "insufficient_data" else "no_seasonality"

/-- The non-`no_data` payload of the revenue pattern dict built by
`_analyze_revenue_patterns`. -/
structure RevenuePatternsData where
  trend : String
  avg_growth_rate : ℚ
  seasonality : String
  revenue_stability : String
  current_mrr : ℚ
deriving Repr, DecidableEq

/-- `_analyze_revenue_patterns` (lines 90–104): `none` embeds
`{"status": "no_data"}` for the empty series; otherwise the dict of trend,
average growth rate, seasonality, stability and current MRR. -/
def analyze_revenue_patterns (revenue_data : List RevenueEntry) :
    Option RevenuePatternsData :=
  match revenue_data with
  | [] => none
  | _ =>
    let latest_revenue := (revenue_data.getLast?.map RevenueEntry.revenue).getD 0
    let growth_rates := growthRates revenue_data
    some
      { trend := if growth_rates.sum > 0 then "growing" else "declining"
        avg_growth_rate :=
          if growth_rates ≠ [] then growth_rates.sum / growth_rates.length else 0
        seasonality := detect_seasonality revenue_data
        revenue_stability :=
          if growth_rates.all (fun r => |r| < 20) then "stable" else "volatile"
        current_mrr := latest_revenue }

/-- `_categorize_activity` (lines 251–259). -/
def categorize_activity (score : ℚ) : String :=
  if score > 100 then "very_active"
  else if score > 50 then "active"
  else if score > 20 then "moderate"
  else "low"

/-- `_categorize_ltv` (lines 261–269). -/
def categorize_ltv (ltv : ℚ) : String :=
  if ltv > 10000 then "enterprise"
  else if ltv > 1000 then "premium"
  else if ltv > 100 then "standard"
  else "basic"

/-- The day-name table of `_day_name`. -/
def dayNames : List String :=
  ["Sunday", "Monday", "Tuesday", "Wednesday", "Thursday", "Friday", "Saturday"]

/-- `_day_name` (lines 271–273): `days[day_num] if 0 <= day_num <= 6 else
'Unknown'`.  Under the guard the index is in bounds, so the `getD` fallback
is never taken and the Python indexing cannot raise. -/
def day_name (day_num : ℤ) : String :=
  if 0 ≤ day_num ∧ day_num ≤ 6 then dayNames.getD day_num.toNat "Unknown"
  else "Unknown"

/-- `_detect_trend` (lines 275–288): split-half comparison of the series.
`if not values or len(values) < 2` collapses to the single length test. -/
def detect_trend (values : List ℚ) : String :=
  if values.length < 2 then "insufficient_data"
  else
    let n := values.length
    let first_half := (values.take (n / 2)).sum / ((n / 2 : ℕ) : ℚ)
    let second_half := (values.drop (n / 2)).sum / ((n - n / 2 : ℕ) : ℚ)
    if second_half > first_half * (11 / 10) then "growing"
    else if second_half < first_half * (9 / 10) then "declining"
    else "stable"

/-- `_categorize_growth` (lines 290–302): mean of the per-entry new-user
ratios (`new_users / users`, 0 when `users ≤ 0` per the guard `users > 0`). -/
def categorize_growth (website_data : List WebsiteEntry) : String :=
  match website_data with
  | [] => "no_data"
  | _ =>
    let new_user_ratio :=
      (website_data.map
        (fun d => if d.users > 0 then d.new_users / d.users else 0)).sum /
        website_data.length
    if new_user_ratio > (7 / 10) then "early_stage"
    else if new_user_ratio > (3 / 10) then "growth_stage"
    else "mature_stage"

/-- The non-`no_data` payload of the development pattern dict built by
`_analyze_dev_patterns`.  Note the source stores the *categorized*
`activity_level`, never a `productivity_score` key. -/
structure DevPatternsData where
  activity_level : String
  pr_efficiency : String
  most_active_day : String
  most_active_hour : ℤ
  collaboration_style : String
deriving Repr, DecidableEq

/-- `_analyze_dev_patterns` (lines 106–117). -/
def analyze_dev_patterns (dev_data : Option DevData) : Option DevPatternsData :=
  match dev_data with
  | none => none
  | some d =>
    some
      { activity_level := categorize_activity (d.productivity_score.getD 0)
        pr_efficiency :=
          if d.avg_pr_merge_time.getD 0 < 2 then "efficient" else "needs_improvement"
        most_active_day := day_name (d.most_active_day.getD 0)
        most_active_hour := d.most_active_hour.getD 0
        collaboration_style := if d.total_prs.getD 0 > 10 then "active" else "passive" }

/-- The non-`no_data` payload of the customer pattern dict built by
`_analyze_customer_patterns`. -/
structure CustomerPatternsData where
  customer_value : String
  engagement : String
  purchase_frequency : String
  cross_platform : Bool
deriving Repr, DecidableEq

/-- Python truthiness of an optional id string: `None` and `""` are falsy. -/
def truthyStr : Option String → Bool
  | none => false
  | some s => s != ""

/-- `_analyze_customer_patterns` (lines 119–129). -/
def analyze_customer_patterns (customer_data : Option CustomerData) :
    Option CustomerPatternsData :=
  match customer_data with
  | none => none
  | some c =>
    some
      { customer_value := categorize_ltv (c.lifetime_value.getD 0)
        engagement := c.engagement_level.getD "unknown"
        purchase_frequency :=
          if c.total_invoices.getD 0 > 10 then "frequent" else "occasional"
        cross_platform := truthyStr c.stripe_customer_id && truthyStr c.shopify_customer_id }

/-- The non-`no_data` payload of the website pattern dict built by
`_analyze_website_patterns`. -/
structure WebsitePatternsData where
  traffic_trend : String
  engagement_quality : String
  user_retention : String
  growth_phase : String
deriving Repr, DecidableEq

/-- `_analyze_website_patterns` (lines 131–144). -/
def analyze_website_patterns (website_data : List WebsiteEntry) :
    Option WebsitePatternsData :=
  match website_data with
  | [] => none
  | _ =>
    let bounce_rates := website_data.map WebsiteEntry.bounce_rate
    some
      { traffic_trend := detect_trend (website_data.map WebsiteEntry.daily_users)
        engagement_quality :=
          if bounce_rates.sum / bounce_rates.length < 50 then "high" else "low"
        user_retention :=
          if website_data.any (fun d => d.sessions_per_user > 3 / 2) then "good"
          else "needs_work"
        growth_phase := categorize_growth website_data }

/-- The pattern report assembled by `_analyze_patterns` (lines 78–88): one
optional dict per category, `none` embedding `{"status": "no_data"}`. -/
structure Patterns where
  revenue_patterns : Option RevenuePatternsData
  development_patterns : Option DevPatternsData
  customer_patterns : Option CustomerPatternsData
  website_patterns : Option WebsitePatternsData
deriving Repr, DecidableEq

/-- `_analyze_patterns` (lines 78–88). -/
def analyze_patterns (user_data : UserData) : Patterns :=
  { revenue_patterns := analyze_revenue_patterns user_data.revenue
    development_patterns := analyze_dev_patterns user_data.developer
    customer_patterns := analyze_customer_patterns user_data.customer
    website_patterns := analyze_website_patterns user_data.website }

/-- `_determine_user_type` (lines 304–318).  The source reads
`patterns['development_patterns'].get('productivity_score', 0)`, but the dict
built by `_analyze_dev_patterns` has no `productivity_score` key (it stores
the categorized `activity_level` instead), so the `.get` always returns the
default 0 — embedded here as the literal 0 that the lookup evaluates to. -/
def determine_user_type (patterns : Patterns) : String :=
  let dev_score : ℚ := 0
  let revenue : ℚ := (patterns.revenue_patterns.map RevenuePatternsData.current_mrr).getD 0
  if dev_score > 50 ∧ revenue > 1000 then "technical_founder"
  else if dev_score > 50 then "developer"
  else if revenue > 5000 then "enterprise_customer"
  else if revenue > 500 then "business_customer"
  else "standard_user"

/-- Modelled from the spec: §4.2's user-type classifier as the specification
states it, reading the developer record's `productivity_score` (which the
source's pattern dict fails to carry) next to `current_mrr`. -/
def determine_user_type_spec (dev_score revenue : ℚ) : String :=
  if dev_score > 50 ∧ revenue > 1000 then "technical_founder"
  else if dev_score > 50 then "developer"
  else if revenue > 5000 then "enterprise_customer"
  else if revenue > 500 then "business_customer"
  else "standard_user"

/-- The revenue `score` adjustment of `_calculate_health_score`
(lines 333–337): +20 on a growing trend, −20 on a declining one.  A
`no_data` revenue pattern has no `trend` key, so `.get('trend')` returns
`None` and neither branch fires. -/
def revenue_trend_delta (patterns : Patterns) : ℤ :=
  if (patterns.revenue_patterns.map RevenuePatternsData.trend) = some "growing" then 20
  else if (patterns.revenue_patterns.map RevenuePatternsData.trend) = some "declining" then -20
  else 0

/-- The engagement `score` adjustment of `_calculate_health_score`
(lines 339–343): ±15 on high/low customer engagement. -/
def engagement_delta (patterns : Patterns) : ℤ :=
  if (patterns.customer_patterns.map CustomerPatternsData.engagement) = some "high" then 15
  else if (patterns.customer_patterns.map CustomerPatternsData.engagement) = some "low" then -15
  else 0

/-- The development-activity `score` adjustment of `_calculate_health_score`
(lines 345–347): +15 when activity_level is `active` or `very_active`. -/
def activity_delta (patterns : Patterns) : ℤ :=
  if (patterns.development_patterns.map DevPatternsData.activity_level) = some "active" ∨
     (patterns.development_patterns.map DevPatternsData.activity_level) = some "very_active"
  then 15 else 0

/-- The `score` accumulator of `_calculate_health_score` (lines 329–349)
before the final clamp: base 50 plus the three sequential adjustments. -/
def health_score_raw (patterns : Patterns) : ℤ :=
  50 + revenue_trend_delta patterns + engagement_delta patterns + activity_delta patterns

/-- `_calculate_health_score` (lines 329–349): the accumulated score clamped
by `max(0, min(100, score))`. -/
def calculate_health_score (patterns : Patterns) : ℤ :=
  max 0 (min 100 (health_score_raw patterns))

/-- The `risk_factors` accumulator of `_calculate_churn_risk`
(lines 351–367). -/
def risk_factors (patterns : Patterns) : ℕ :=
  (if (patterns.revenue_patterns.map RevenuePatternsData.trend) = some "declining"
   then 2 else 0) +
  (if (patterns.customer_patterns.map CustomerPatternsData.engagement) = some "low"
   then 2 else 0) +
  (if (patterns.website_patterns.map WebsitePatternsData.engagement_quality) = some "low"
   then 1 else 0)

/-- `_calculate_churn_risk` (lines 351–367): the risk-factor count mapped to
a tier. -/
def calculate_churn_risk (patterns : Patterns) : String :=
  if risk_factors patterns ≥ 4 then "high"
  else if risk_factors patterns ≥ 2 then "medium"
  else "low"

/-- The revenue `score` adjustment of `_calculate_growth_potential`
(lines 373–374): +20 on a growing revenue trend. -/
def revenue_growth_delta (patterns : Patterns) : ℤ :=
  if (patterns.revenue_patterns.map RevenuePatternsData.trend) = some "growing" then 20 else 0

/-- The development `score` adjustment of `_calculate_growth_potential`
(lines 375–376): +20 on very active development. -/
def dev_growth_delta (patterns : Patterns) : ℤ :=
  if (patterns.development_patterns.map DevPatternsData.activity_level) = some "very_active"
  then 20 else 0

/-- The website `score` adjustment of `_calculate_growth_potential`
(lines 377–378): +10 on a growing traffic trend. -/
def website_growth_delta (patterns : Patterns) : ℤ :=
  if (patterns.website_patterns.map WebsitePatternsData.traffic_trend) = some "growing"
  then 10 else 0

/-- The `score` accumulator of `_calculate_growth_potential`
(lines 369–380) before the final `min(100, score)`. -/
def growth_potential_raw (patterns : Patterns) : ℤ :=
  50 + revenue_growth_delta patterns + dev_growth_delta patterns + website_growth_delta patterns

/-- `_calculate_growth_potential` (lines 369–380): note the clamp is only
`min(100, score)` — there is no lower clamp in the source. -/
def calculate_growth_potential (patterns : Patterns) : ℤ :=
  min 100 (growth_potential_raw patterns)

/-- The per-account loop body of `run_daily_analysis` (lines 387–416): each
account is analyzed inside `try`; an `Exception` is caught, logged and the
loop `continue`s.  Embedded as a recursion producing, per account, `some`
result on success and `none` on a caught failure. -/
def run_daily_analysis {α β ε : Type} (analyze : α → Except ε β) :
    List α → List (α × Option β)
  | [] => []
  | u :: rest =>
    (u,
      match analyze u with
      | Except.ok r => some r
      | Except.error _ => none) :: run_daily_analysis analyze rest

/-! Claim-side definitions: statements of the specification written
independently of the source functions, to be compared with them. -/

/-- Arithmetic mean of a list of rationals, 0 for the empty list. -/
def avgOf (l : List ℚ) : ℚ :=
  if l = [] then 0 else l.sum / l.length

/-- The specification's average growth rate: the mean over exactly the
entries whose `growth_rate` field is present (zero values included). -/
def claim_avg_growth (revenue_data : List RevenueEntry) : ℚ :=
  avgOf (revenue_data.filterMap RevenueEntry.growth_rate)

/-- The churn tier as a function of the risk-factor count: ≥4 high,
≥2 medium, else low. -/
def churn_tier (count : ℕ) : String :=
  if count ≥ 4 then "high" else if count ≥ 2 then "medium" else "low"

/-- Ordinal rank of the churn tiers, for stating monotonicity. -/
def tier_rank : String → ℕ
  | "medium" => 1
  | "high" => 2
  | _ => 0

/-- The specification's split-half trend formula for a series of at least
two points: mean of the first `⌊n/2⌋` entries against the mean of the
rest, with the ×1.1 / ×0.9 bands. -/
def split_half_trend (values : List ℚ) : String :=
  let first_half := (values.take (values.length / 2)).sum / ((values.length / 2 : ℕ) : ℚ)
  let second_half :=
    (values.drop (values.length / 2)).sum / ((values.length - values.length / 2 : ℕ) : ℚ)
  if second_half > first_half * (11 / 10) then "growing"
  else if second_half < first_half * (9 / 10) then "declining"
  else "stable"

/-! Concrete snapshots used as inputs of the scenario theorems and
witnesses. -/

/-- A developer record with productivity_score 60 and every other field
absent. -/
def devSixty : DevData := ⟨some 60, none, none, none, none⟩

/-- Snapshot of a technical founder per §4.2: developer productivity_score
60 (> 50) and current MRR 2000 (> 1000). -/
def snapFounder : UserData := ⟨none, some devSixty, [⟨2000, some 5⟩], []⟩

/-- The two-entry revenue series of the C2 counterexample: one entry with
growth_rate 0, one with growth_rate 10 (revenue values play no role). -/
def revZeroTen : List RevenueEntry := [⟨0, some 0⟩, ⟨0, some 10⟩]

/-- Scenario A's customer record: engagement_level "high", all else
absent. -/
def custHigh : CustomerData := ⟨none, some "high", none, none, none⟩

/-- Scenario A's snapshot: revenue series with growth rates 5 and 8
(revenue amounts unconstrained by the scenario, taken as 0), customer
engagement high, developer productivity_score 60. -/
def snapScenarioA : UserData :=
  ⟨some custHigh, some devSixty, [⟨0, some 5⟩, ⟨0, some 8⟩], []⟩

/-- A snapshot with an empty revenue series (all other groups absent). -/
def snapNoRevenue : UserData := ⟨none, none, [], []⟩

/-- A snapshot whose website series has exactly one entry. -/
def snapOneWebsite : UserData := ⟨none, none, [], [⟨100, 10, 100, 40, 2⟩]⟩

/-- The empty pattern report (every category `no_data`). -/
def emptyPatterns : Patterns := ⟨none, none, none, none⟩

/-- A concrete batch analyzer for the C9 witness: fails on account 1,
succeeds elsewhere. -/
def analyzeEx : ℕ → Except ℕ ℕ :=
  fun n => if n = 1 then Except.error 7 else Except.ok n

/-! Helper lemmas shared by the claim theorems. -/

/-- The unclamped health score lies between 15 and 100: the worst case is
50 − 20 − 15, the best 50 + 20 + 15 + 15. -/
lemma health_score_raw_bounds (patterns : Patterns) :
    15 ≤ health_score_raw patterns ∧ health_score_raw patterns ≤ 100 := by
  unfold health_score_raw revenue_trend_delta engagement_delta activity_delta
  split_ifs <;> omega

/-- The unclamped growth score lies between 50 and 100: every adjustment is
non-negative and they sum to at most 50. -/
lemma growth_potential_raw_bounds (patterns : Patterns) :
    50 ≤ growth_potential_raw patterns ∧ growth_potential_raw patterns ≤ 100 := by
  unfold growth_potential_raw revenue_growth_delta dev_growth_delta website_growth_delta
  split_ifs <;> omega

/-- The batch loop produces exactly one outcome per account, in order. -/
lemma run_daily_analysis_map_fst {α β ε : Type} (analyze : α → Except ε β)
    (users : List α) :
    (run_daily_analysis analyze users).map Prod.fst = users := by
  induction users with
  | nil => rfl
  | cons u rest ih => simp [run_daily_analysis, ih]

/-- The batch loop distributes over list append. -/
lemma run_daily_analysis_append {α β ε : Type} (analyze : α → Except ε β)
    (l₁ l₂ : List α) :
    run_daily_analysis analyze (l₁ ++ l₂) =
      run_daily_analysis analyze l₁ ++ run_daily_analysis analyze l₂ := by
  induction l₁ with
  | nil => rfl
  | cons u rest ih => simp [run_daily_analysis, ih]

/-! Claim theorems. -/

/-- C3: for every pattern report, the returned health_score and
growth_potential are integers in the closed interval [0, 100], however many
bonuses or penalties apply. -/
theorem C3_scores_in_range (patterns : Patterns) :
    0 ≤ calculate_health_score patterns ∧ calculate_health_score patterns ≤ 100 ∧
    0 ≤ calculate_growth_potential patterns ∧ calculate_growth_potential patterns ≤ 100 := by
  have h1 := health_score_raw_bounds patterns
  have h2 := growth_potential_raw_bounds patterns
  unfold calculate_health_score calculate_growth_potential
  omega

/-- C10: the unclamped health score lies in [15, 100] and the unclamped
growth score in [50, 100], so neither clamp ever changes the value; in
particular growth_potential is always at least 50 and health_score never
below 15. -/
theorem C10_clamps_never_bind (patterns : Patterns) :
    15 ≤ health_score_raw patterns ∧ health_score_raw patterns ≤ 100 ∧
    50 ≤ growth_potential_raw patterns ∧ growth_potential_raw patterns ≤ 100 ∧
    calculate_health_score patterns = health_score_raw patterns ∧
    calculate_growth_potential patterns = growth_potential_raw patterns := by
  have h1 := health_score_raw_bounds patterns
  have h2 := growth_potential_raw_bounds patterns
  unfold calculate_health_score calculate_growth_potential
  omega

/-- C4: churn_risk equals the tier of the risk-factor count (+2 declining
revenue, +2 low engagement, +1 low website engagement quality; ≥4 high,
≥2 medium, else low), and the tier is monotone non-decreasing in the
count. -/
theorem C4_churn_risk_tiering (patterns : Patterns) (m n : ℕ) (hmn : m ≤ n) :
    calculate_churn_risk patterns = churn_tier (risk_factors patterns) ∧
    tier_rank (churn_tier m) ≤ tier_rank (churn_tier n) := by
  constructor
  · rfl
  · unfold churn_tier
    split_ifs <;> first | decide | (exfalso; omega)

/-- Witness for C4 at the empty pattern report and counts 1 ≤ 3. -/
theorem C4_churn_risk_tiering_witness :
    calculate_churn_risk emptyPatterns = churn_tier (risk_factors emptyPatterns) ∧
    tier_rank (churn_tier 1) ≤ tier_rank (churn_tier 3) :=
  C4_churn_risk_tiering emptyPatterns 1 3 (by decide)

/-- C8: for every integer most_active_day outside 0–6 the label is
"Unknown" and no exception is raised (the guarded list index is only taken
in bounds); for 0–6 it is the corresponding day Sunday..Saturday. -/
theorem C8_day_name_total (d : ℤ) (hout : d < 0 ∨ 6 < d) :
    day_name d = "Unknown" ∧
    day_name 0 = "Sunday" ∧ day_name 1 = "Monday" ∧ day_name 2 = "Tuesday" ∧
    day_name 3 = "Wednesday" ∧ day_name 4 = "Thursday" ∧ day_name 5 = "Friday" ∧
    day_name 6 = "Saturday" := by
  refine ⟨?_, by decide, by decide, by decide, by decide, by decide, by decide, by decide⟩
  unfold day_name
  rw [if_neg (by omega)]

/-- Witness for C8 at the out-of-range day 9 of Scenario D. -/
theorem C8_day_name_total_witness :
    day_name 9 = "Unknown" ∧
    day_name 0 = "Sunday" ∧ day_name 1 = "Monday" ∧ day_name 2 = "Tuesday" ∧
    day_name 3 = "Wednesday" ∧ day_name 4 = "Thursday" ∧ day_name 5 = "Friday" ∧
    day_name 6 = "Saturday" :=
  C8_day_name_total 9 (Or.inr (by decide))

/-- C9: if scoring one account of the daily batch fails, the failure is
caught at the loop boundary: the batch still produces one outcome per
account in order, the failed account yields `none`, and every account
before and after it is processed normally. -/
theorem C9_batch_isolation {α β ε : Type} (analyze : α → Except ε β)
    (users pre rest : List α) (u : α) (e : ε)
    (hsplit : users = pre ++ u :: rest) (herr : analyze u = Except.error e) :
    (run_daily_analysis analyze users).map Prod.fst = users ∧
    run_daily_analysis analyze users =
      run_daily_analysis analyze pre ++ (u, none) :: run_daily_analysis analyze rest := by
  subst hsplit
  refine ⟨run_daily_analysis_map_fst _ _, ?_⟩
  rw [run_daily_analysis_append]
  simp [run_daily_analysis, herr]

/-- Witness for C9: a three-account batch whose middle account fails. -/
theorem C9_batch_isolation_witness :
    (run_daily_analysis analyzeEx [0, 1, 2]).map Prod.fst = [0, 1, 2] ∧
    run_daily_analysis analyzeEx [0, 1, 2] =
      run_daily_analysis analyzeEx [0] ++ (1, none) :: run_daily_analysis analyzeEx [2] :=
  C9_batch_isolation analyzeEx [0, 1, 2] [0] [2] 1 7 rfl rfl

/-- C1: the code bug behind the user-type claim.  On the snapshot whose
developer record has productivity_score 60 and whose current MRR is 2000
the source returns "business_customer", while the specification's
classifier (reading the developer's productivity score directly) returns
"technical_founder"; indeed the source can never return "technical_founder"
or "developer" for any pattern report, because the development pattern dict
carries no `productivity_score` key and the `.get` defaults to 0. -/
theorem C1_user_type_never_developer :
    determine_user_type (analyze_patterns snapFounder) = "business_customer" ∧
    determine_user_type_spec
      ((snapFounder.developer.map (fun d => d.productivity_score.getD 0)).getD 0)
      2000 = "technical_founder" ∧
    ∀ patterns : Patterns,
      determine_user_type patterns ≠ "technical_founder" ∧
      determine_user_type patterns ≠ "developer" := by
  refine ⟨by rfl, by rfl, ?_⟩
  intro patterns
  have h50 : ¬ ((0 : ℚ) > 50) := by norm_num
  unfold determine_user_type
  simp only [h50, false_and, if_false]
  split_ifs <;> exact ⟨by decide, by decide⟩

/-- C2 counterexample: on the series with growth rates 0 and 10 the source
averages only the truthy growth rates, giving 10, while the claim's mean
over all present growth rates is 5. -/
theorem C2_zero_growth_excluded :
    (analyze_revenue_patterns revZeroTen).map RevenuePatternsData.avg_growth_rate ≠
      some (claim_avg_growth revZeroTen) ∧
    (analyze_revenue_patterns revZeroTen).map RevenuePatternsData.avg_growth_rate = some 10 ∧
    claim_avg_growth revZeroTen = 5 := by
  refine ⟨?_, ?_, ?_⟩
  · simp [revZeroTen, analyze_revenue_patterns, growthRates, truthy, claim_avg_growth, avgOf,
      List.filterMap]
    norm_num
  · simp [revZeroTen, analyze_revenue_patterns, growthRates, truthy]
  · simp [revZeroTen, claim_avg_growth, avgOf, List.filterMap]
    norm_num

/-- The comprehension filter of `_analyze_revenue_patterns` keeps exactly
the growth rates that are present and nonzero (Python truthiness). -/
lemma growthRates_eq_filter (l : List RevenueEntry) :
    growthRates l = (l.filterMap RevenueEntry.growth_rate).filter (fun g => g ≠ 0) := by
  unfold growthRates
  induction l with
  | nil => rfl
  | cons r rest ih =>
    cases h : r.growth_rate with
    | none => simpa [List.filter_cons, List.filterMap_cons, truthy, h] using ih
    | some g =>
      by_cases hg : g = 0 <;>
        simpa [List.filter_cons, List.filterMap_cons, truthy, h, hg] using ih

/-- C2 amended: for every non-empty revenue series, avg_growth_rate is the
arithmetic mean of the growth_rate values of exactly those entries whose
growth_rate is present *and nonzero* (0 if there are none); entries with a
growth_rate of 0 are excluded by the truthiness filter, like missing
ones. -/
theorem C2_avg_growth_amended (revenue_data : List RevenueEntry)
    (h : revenue_data ≠ []) :
    ∃ p, analyze_revenue_patterns revenue_data = some p ∧
      p.avg_growth_rate =
        avgOf ((revenue_data.filterMap RevenueEntry.growth_rate).filter
          (fun g => g ≠ 0)) := by
  cases revenue_data with
  | nil => exact absurd rfl h
  | cons r rest =>
    refine ⟨_, rfl, ?_⟩
    show (if growthRates (r :: rest) ≠ [] then
        (growthRates (r :: rest)).sum / (growthRates (r :: rest)).length else 0) = _
    rw [← growthRates_eq_filter, avgOf]
    by_cases hg : growthRates (r :: rest) = [] <;> simp [hg]

/-- Witness for C2's amended claim on the counterexample series. -/
theorem C2_avg_growth_amended_witness :
    ∃ p, analyze_revenue_patterns revZeroTen = some p ∧
      p.avg_growth_rate =
        avgOf ((revZeroTen.filterMap RevenueEntry.growth_rate).filter
          (fun g => g ≠ 0)) :=
  C2_avg_growth_amended revZeroTen (by simp [revZeroTen])

/-- C7 (Scenario A): on the snapshot with growth rates 5 and 8, high
customer engagement and developer productivity 60, the revenue trend is
growing, stability stable, and the health score is exactly
50 + 20 + 15 + 15 = 100. -/
theorem C7_scenario_a :
    ((analyze_patterns snapScenarioA).revenue_patterns.map RevenuePatternsData.trend) =
      some "growing" ∧
    ((analyze_patterns snapScenarioA).revenue_patterns.map
      RevenuePatternsData.revenue_stability) = some "stable" ∧
    calculate_health_score (analyze_patterns snapScenarioA) = 100 := by
  refine ⟨?_, ?_, ?_⟩
  · simp [analyze_patterns, analyze_revenue_patterns, growthRates, truthy, snapScenarioA]
    norm_num
  · simp [analyze_patterns, analyze_revenue_patterns, growthRates, truthy, snapScenarioA]
    norm_num
  · simp [calculate_health_score, health_score_raw, revenue_trend_delta, engagement_delta,
      activity_delta, analyze_patterns, analyze_revenue_patterns, growthRates, truthy,
      analyze_customer_patterns, analyze_dev_patterns, categorize_activity,
      analyze_website_patterns, snapScenarioA, custHigh, devSixty]
    norm_num

/-- C5: on a snapshot with an empty revenue series the revenue pattern is
the bare `no_data` status, and both scores equal what they would be with
every revenue-dependent bonus and penalty absent: the revenue category
contributes zero delta. -/
theorem C5_empty_revenue_neutral (snap : UserData) (h : snap.revenue = []) :
    (analyze_patterns snap).revenue_patterns = none ∧
    calculate_health_score (analyze_patterns snap) =
      max 0 (min 100 (50 + engagement_delta (analyze_patterns snap) +
        activity_delta (analyze_patterns snap))) ∧
    calculate_growth_potential (analyze_patterns snap) =
      min 100 (50 + dev_growth_delta (analyze_patterns snap) +
        website_growth_delta (analyze_patterns snap)) := by
  have hrev : (analyze_patterns snap).revenue_patterns = none := by
    simp [analyze_patterns, analyze_revenue_patterns, h]
  have htrend : revenue_trend_delta (analyze_patterns snap) = 0 := by
    unfold revenue_trend_delta
    rw [hrev]
    simp
  have hgrow : revenue_growth_delta (analyze_patterns snap) = 0 := by
    unfold revenue_growth_delta
    rw [hrev]
    simp
  refine ⟨hrev, ?_, ?_⟩
  · unfold calculate_health_score health_score_raw
    rw [htrend]
    ring_nf
  · unfold calculate_growth_potential growth_potential_raw
    rw [hgrow]
    ring_nf

/-- Witness for C5 on the concrete snapshot with an empty revenue series. -/
theorem C5_empty_revenue_neutral_witness :
    (analyze_patterns snapNoRevenue).revenue_patterns = none ∧
    calculate_health_score (analyze_patterns snapNoRevenue) =
      max 0 (min 100 (50 + engagement_delta (analyze_patterns snapNoRevenue) +
        activity_delta (analyze_patterns snapNoRevenue))) ∧
    calculate_growth_potential (analyze_patterns snapNoRevenue) =
      min 100 (50 + dev_growth_delta (analyze_patterns snapNoRevenue) +
        website_growth_delta (analyze_patterns snapNoRevenue)) :=
  C5_empty_revenue_neutral snapNoRevenue rfl

/-- On a website series of fewer than two entries, any non-`no_data`
website pattern carries the `insufficient_data` traffic trend. -/
lemma analyze_website_short (ws : List WebsiteEntry) (hws : ws.length < 2)
    (w : WebsitePatternsData) (hw : analyze_website_patterns ws = some w) :
    w.traffic_trend = "insufficient_data" := by
  match ws, hws with
  | [], _ => simp [analyze_website_patterns] at hw
  | [e], _ =>
    have hmap := congrArg (Option.map WebsitePatternsData.traffic_trend) hw
    simp [analyze_website_patterns] at hmap
    rw [← hmap]
    rfl
  | e1 :: e2 :: r, hws => simp at hws; omega

/-- C6: for series of at least two points the traffic trend is the
split-half comparison with the ×1.1 / ×0.9 bands; for series of fewer than
two points it is `insufficient_data`, the website pattern of such a
snapshot never reports a growing trend, and growth_potential receives no
+10 website term. -/
theorem C6_split_half_trend (values short : List ℚ) (snap : UserData)
    (h2 : 2 ≤ values.length) (hshort : short.length < 2)
    (hw : snap.website.length < 2) :
    detect_trend values = split_half_trend values ∧
    detect_trend short = "insufficient_data" ∧
    (∀ w, analyze_website_patterns snap.website = some w →
      w.traffic_trend = "insufficient_data") ∧
    calculate_growth_potential (analyze_patterns snap) =
      min 100 (50 + revenue_growth_delta (analyze_patterns snap) +
        dev_growth_delta (analyze_patterns snap)) := by
  refine ⟨?_, ?_, ?_, ?_⟩
  · unfold detect_trend split_half_trend
    rw [if_neg (by omega)]
  · unfold detect_trend
    rw [if_pos hshort]
  · exact fun w => analyze_website_short snap.website hw w
  · have hdelta : website_growth_delta (analyze_patterns snap) = 0 := by
      unfold website_growth_delta
      cases hww : (analyze_patterns snap).website_patterns with
      | none => simp
      | some w =>
        have hins := analyze_website_short snap.website hw w
          (by simpa [analyze_patterns] using hww)
        simp [hins]
    unfold calculate_growth_potential growth_potential_raw
    rw [hdelta]
    ring_nf

/-- Witness for C6 with the series [1, 2], the singleton series [1] and the
one-entry website snapshot. -/
theorem C6_split_half_trend_witness :
    detect_trend [1, 2] = split_half_trend [1, 2] ∧
    detect_trend [(1 : ℚ)] = "insufficient_data" ∧
    (∀ w, analyze_website_patterns snapOneWebsite.website = some w →
      w.traffic_trend = "insufficient_data") ∧
    calculate_growth_potential (analyze_patterns snapOneWebsite) =
      min 100 (50 + revenue_growth_delta (analyze_patterns snapOneWebsite) +
        dev_growth_delta (analyze_patterns snapOneWebsite)) :=
  C6_split_half_trend [1, 2] [(1 : ℚ)] snapOneWebsite (by decide) (by decide) (by decide)

end Opsai
